import Mathlib

/-!
Verification of the openNova command-processing and plan-execution pipeline.

The definitions below are a shallow embedding of the Python sources:
  src/llm/planner.py        (ActionPlanner.validate_plan, ActionPlanner.needs_confirmation)
  src/actions/executor.py   (ActionExecutor.execute_plan, _execute_action, _action_click, ...)
  src/actions/shell.py      (ShellExecutor.is_dangerous, ShellExecutor.execute_powershell)
  src/core/ai_backend.py    (AIBackend._handle_confirmation, _process_transcribed_text,
                             the execute_plan branch of _process_command)
  src/gui/main_window.py    (the plan-forwarding fragment of _handle_response)

Python dictionaries whose keys vary are modelled as structures with Option-typed
fields (a missing key is none); JSON values are modelled by the inductive JVal,
whose arrays are restricted to the numeric coordinate pairs of the data model.
External collaborators (LLM, accessibility tree, vision analyzer, subprocess,
input simulator, TTS, memory) are passed in as function parameters; calls whose
only role is an OS side effect (mouse movement, sleeping, speaking) do not
appear, since they do not influence any returned value.
-/

namespace OpenNova

/-- Python `str.lower()` restricted to per-character lowering (all strings the
pipeline compares are ASCII). -/
def pyLower (s : String) : String := ⟨s.data.map Char.toLower⟩

/-- Python `str.strip()`: drop whitespace from both ends. -/
def pyStrip (s : String) : String :=
  ⟨((s.data.dropWhile Char.isWhitespace).reverse.dropWhile Char.isWhitespace).reverse⟩

/-- Is `n` a (contiguous) prefix of `h`? Helper for the substring test. -/
def listIsPrefix : List Char → List Char → Bool
  | [], _ => true
  | _ :: _, [] => false
  | a :: as, b :: bs => a == b && listIsPrefix as bs

/-- Is `n` a contiguous infix of the second list? -/
def listIsInfix (n : List Char) : List Char → Bool
  | [] => n.isEmpty
  | b :: bs => listIsPrefix n (b :: bs) || listIsInfix n bs

/-- Python `needle in hay` on strings: contiguous substring containment. -/
def strContains (hay needle : String) : Bool := listIsInfix needle.data hay.data

/-- JSON-ish values occurring in plan dictionaries. Arrays are restricted to
lists of integers, the only array shape the data model uses (coordinate
pairs); string escaping inside `json.dumps` is not modelled (no theorem below
uses a string needing escapes). -/
inductive JVal where
  | s (v : String)
  | n (v : Int)
  | b (v : Bool)
  | arr (vs : List Int)
deriving DecidableEq

/-- `json.dumps` of a single JSON value (Python default separators). -/
def JVal.dump : JVal → String
  | .s v => "\"" ++ v ++ "\""
  | .n v => toString v
  | .b true => "true"
  | .b false => "false"
  | .arr vs => "[" ++ String.intercalate ", " (vs.map toString) ++ "]"

/-- Python truthiness of a JSON value. -/
def JVal.truthy : JVal → Bool
  | .s v => !(v == "")
  | .n v => !(v == 0)
  | .b v => v
  | .arr vs => !vs.isEmpty

/-- Python `str()` of a JSON value, as used inside f-strings. -/
def JVal.pyStr : JVal → String
  | .s v => v
  | .n v => toString v
  | .b true => "True"
  | .b false => "False"
  | .arr vs => "[" ++ String.intercalate ", " (vs.map toString) ++ "]"

/-- An ActionDescriptor: one action dictionary of a plan (keys are unique in
the JSON source; lookup takes the first occurrence). -/
abbrev Action := List (String × JVal)

/-- A Plan: ordered list of ActionDescriptors. -/
abbrev Plan := List Action

/-- Python `action.get(k)` without a default: `none` when the key is absent. -/
def getField (a : Action) (k : String) : Option JVal :=
  (a.find? (fun kv => kv.1 == k)).map (fun kv => kv.2)

/-- Does the dictionary carry the key (Python `k in action`)? -/
def hasField (a : Action) (k : String) : Bool := (getField a k).isSome

/-- `json.dumps(action)`: the object rendering with Python default separators
`", "` and `": "`. -/
def dumpAction (a : Action) : String :=
  "\x7b" ++
    String.intercalate ", " (a.map (fun kv => "\"" ++ kv.1 ++ "\": " ++ kv.2.dump)) ++
  "\x7d"

/-! ### Plan Synthesizer classification (src/llm/planner.py) -/

/-- The fixed high-risk substring list of `ActionPlanner.needs_confirmation`. -/
def dangerous_keywords : List String :=
  ["delete", "remove", "format", "rm ", "del ", "registry", "regedit", "system32"]

/-- `action.get("confirm", False)` read as a Python truth value. -/
def confirmFlag (a : Action) : Bool :=
  ((getField a "confirm").map JVal.truthy).getD false

/-- `ActionPlanner.needs_confirmation`: a plan is dangerous when some action
carries a truthy `confirm` flag or its lower-cased `json.dumps` rendering
contains a high-risk keyword. -/
def needs_confirmation (plan : Plan) : Bool :=
  plan.any (fun action =>
    confirmFlag action ||
    dangerous_keywords.any (fun kw => strContains (pyLower (dumpAction action)) kw))

/-- The required-field list of `ActionPlanner.validate_plan`. -/
def required_fields : List String := ["action"]

/-- `ActionPlanner.validate_plan`: every action must carry each required field.
(The source also rejects a plan element that is not a dictionary; the `Action`
type of this embedding only represents dictionaries.) -/
def validate_plan (plan : Plan) : Bool :=
  plan.all (fun action => required_fields.all (fun f => hasField action f))

/-! ### Shell safety layer (src/actions/shell.py) -/

/-- `ShellExecutor.is_dangerous`: case-insensitive blacklist substring check.
The blacklist comes from the `safety.blacklist_commands` configuration entry
and is passed in explicitly. -/
def is_dangerous (blacklist : List String) (command : String) : Bool :=
  blacklist.any (fun b => strContains (pyLower command) (pyLower b))

/-- `ShellExecutor.execute_powershell`: a blacklisted command is blocked before
any process is spawned; otherwise the subprocess collaborator `runPS` supplies
the `(return_code, stdout, stderr)` triple (its timeout and exception recovery
paths are folded into `runPS`). -/
def execute_powershell (blacklist : List String)
    (runPS : String → Int × String × String) (command : String) :
    Int × String × String :=
  if is_dangerous blacklist command then (-1, "", "Command blocked for safety")
  else runPS command

/-! ### Action Dispatcher (src/actions/executor.py, per-action handlers) -/

/-- One StepOutcome: the result dictionary of a single action. Keys beyond
`success` and `message` are collected in `extra`. -/
structure Outcome where
  success : Bool
  message : String
  extra : List (String × JVal) := []
deriving DecidableEq

/-- The outcome `_action_click` builds after clicking at `(x, y)`. -/
def clickOutcome (x y : Int) : Outcome :=
  { success := true,
    message := "Clicked at (" ++ toString x ++ ", " ++ toString y ++ ")",
    extra := [("coordinates", JVal.arr [x, y])] }

/-- `ActionExecutor._action_click`. `acc` models
`accessibility.find_element_by_name` (returning the element center) and `vis`
models `vision_analyzer.find_element_in_screenshot`; both collaborators yield
a coordinate pair or nothing. -/
def action_click (acc : String → Option (Int × Int))
    (vis : String → Option (Int × Int)) (a : Action) : Outcome :=
  match (getField a "target").getD (JVal.s "") with
  | JVal.s name =>
      match acc name with
      | some (x, y) => clickOutcome x y
      | none =>
          match vis name with
          | some (x, y) => clickOutcome x y
          | none => { success := false, message := "Could not find: " ++ name }
  | JVal.arr (x :: y :: _) => clickOutcome x y
  | _ => { success := false, message := "Invalid click target" }

/-- `ActionExecutor._action_type`. The keyboard effector call is effect-only. -/
def action_type (a : Action) : Outcome :=
  let text := (getField a "value").getD (JVal.s "")
  if !text.truthy then { success := false, message := "No text to type" }
  else { success := true, message := "Typed: " ++ text.pyStr }

/-- `ActionExecutor._action_key`. Whether the value is a `+`-chorded hotkey or
a single key only selects the effector call; both branches build the same
outcome dictionary. -/
def action_key (a : Action) : Outcome :=
  let key := (getField a "value").getD (JVal.s "")
  if !key.truthy then { success := false, message := "No key specified" }
  else { success := true, message := "Pressed: " ++ key.pyStr }

/-- `ActionExecutor._action_shell`: take `target` or, when falsy, `value`; an
empty command fails without running anything; otherwise route through
`execute_powershell` and report success iff the exit code is zero. A truthy
non-string command raises a type error in the source (not modelled; no claim
involves one). -/
def action_shell (blacklist : List String)
    (runPS : String → Int × String × String) (a : Action) : Outcome :=
  let tv := (getField a "target").getD (JVal.s "")
  let vv := (getField a "value").getD (JVal.s "")
  match (if tv.truthy then tv else vv) with
  | JVal.s command =>
      if command == "" then { success := false, message := "No command specified" }
      else
        let r := execute_powershell blacklist runPS command
        { success := r.1 == 0,
          message := "Executed: " ++ command,
          extra := [("output", JVal.s r.2.1), ("error", JVal.s r.2.2),
                    ("return_code", JVal.n r.1)] }
  | _ => { success := false, message := "No command specified" }

/-- `ActionExecutor._action_open`: `openApp` models
`shell.open_application` (which returns false when the launch call raises).
A truthy non-string application is outside the embedding. -/
def action_open (openApp : String → Bool) (a : Action) : Outcome :=
  let tv := (getField a "target").getD (JVal.s "")
  let vv := (getField a "value").getD (JVal.s "")
  match (if tv.truthy then tv else vv) with
  | JVal.s app =>
      if app == "" then { success := false, message := "No application specified" }
      else if openApp app then { success := true, message := "Opened: " ++ app }
      else { success := false, message := "Failed to open: " ++ app }
  | _ => { success := false, message := "No application specified" }

/-- `ActionExecutor._action_wait`. The source converts the value to float
seconds (default 1 on parse failure) and sleeps; the sleep is effect-only, so
durations are carried as integers here. -/
def action_wait (a : Action) : Outcome :=
  let v := (getField a "value").getD (JVal.n 1)
  let duration : Int := match v with | JVal.n k => k | _ => 1
  { success := true, message := "Waited " ++ toString duration ++ " seconds" }

/-- `ActionExecutor._action_move`. -/
def action_move (a : Action) : Outcome :=
  match (getField a "target").getD (JVal.s "") with
  | JVal.arr (x :: y :: _) =>
      { success := true, message := "Moved to (" ++ toString x ++ ", " ++ toString y ++ ")" }
  | _ => { success := false, message := "Invalid move target" }

/-- `ActionExecutor._action_scroll`: integer click count (default 3 on parse
failure) and a direction defaulting to "down". -/
def action_scroll (a : Action) : Outcome :=
  let clicksV := (getField a "value").getD (JVal.n 3)
  let clicks : Int := match clicksV with
    | JVal.n k => k
    | JVal.b bv => if bv then 1 else 0
    | JVal.s t => (t.toInt?).getD 3
    | JVal.arr _ => 3
  let direction := ((getField a "direction").getD (JVal.s "down")).pyStr
  { success := true,
    message := "Scrolled " ++ toString clicks ++ " clicks " ++ direction }

/-- `ActionExecutor._execute_action`: dispatch on the lower-cased `action`
field (default the empty string). A non-string `action` value raises before
dispatch in the source and is outside the embedding. -/
def execute_action (acc vis : String → Option (Int × Int))
    (runPS : String → Int × String × String) (openApp : String → Bool)
    (blacklist : List String) (a : Action) : Outcome :=
  let kind := match getField a "action" with
    | some (JVal.s v) => pyLower v
    | some _ => ""
    | none => ""
  if kind == "click" then action_click acc vis a
  else if kind == "type" then action_type a
  else if kind == "key" then action_key a
  else if kind == "shell" then action_shell blacklist runPS a
  else if kind == "open" then action_open openApp a
  else if kind == "wait" then action_wait a
  else if kind == "move" then action_move a
  else if kind == "scroll" then action_scroll a
  else { success := false, message := "Unknown action: " ++ kind }

/-! ### Plan Executor (src/actions/executor.py, execute_plan) -/

/-- A dispatcher call either returns an outcome dictionary or raises with a
message (`_execute_action` is wrapped in try/except by `execute_plan`). -/
inductive StepResult where
  | ok (r : Outcome)
  | exn (msg : String)
deriving DecidableEq

/-- The per-step body of the `execute_plan` loop: a raised exception is
recorded as a failed outcome carrying the exception text. -/
def stepOutcome (dispatch : Action → StepResult) (a : Action) : Outcome :=
  match dispatch a with
  | .ok r => r
  | .exn msg => { success := false, message := msg }

/-- The execution-result dictionary of `ActionExecutor.execute_plan`. Missing
keys (the empty-plan return carries only `success` and `message`) are `none`. -/
structure Report where
  success : Bool
  message : Option String := none
  total_steps : Option Nat := none
  successful_steps : Option Nat := none
  results : Option (List Outcome) := none
deriving DecidableEq

/-- `ActionExecutor.execute_plan`: reject the empty plan, otherwise run every
step in order through the dispatcher, keeping one outcome per action, and
aggregate. The fixed 0.5 s inter-step sleep is effect-only. -/
def execute_plan (dispatch : Action → StepResult) (plan : Plan) : Report :=
  if plan.isEmpty then
    { success := false, message := some "Empty plan" }
  else
    let results := plan.map (stepOutcome dispatch)
    let success_count := (results.filter (fun r => r.success)).length
    { success := success_count == results.length,
      total_steps := some results.length,
      successful_steps := some success_count,
      results := some results }

/-! ### Command Router and Confirmation Gate (src/core/ai_backend.py) -/

/-- The result dictionary of `PluginManager.execute_skill` when a skill
handled the utterance (`none` on the caller side means no skill matched or
the result was falsy). -/
structure PluginResult where
  success : Bool
  response : String
  data : Option JVal := none
deriving DecidableEq

/-- A response dictionary sent back to the GUI. The constant `type` key is
omitted; keys that a branch does not set are `none`. -/
structure Response where
  status : String
  message : String
  awaiting_confirmation : Option Bool := none
  remaining_confirmations : Option Int := none
  needs_confirmation : Option Bool := none
  plan : Option Plan := none
  result : Option Report := none
  plugin_data : Option (Option JVal) := none
deriving DecidableEq

/-- The confirmation-relevant mutable state of `AIBackend`. -/
structure BackendState where
  pending_plan : Option Plan
  pending_command_text : String
  pending_confirmations : Int
  required_confirmations : Int
deriving DecidableEq

/-- The affirmative token set of `AIBackend._handle_confirmation`. -/
def confirm_tokens : List String :=
  ["confirm", "yes", "proceed", "continue", "confirm execute"]

/-- The cancel token set of `AIBackend._handle_confirmation`. -/
def cancel_tokens : List String := ["cancel", "stop", "no", "abort"]

/-- The response built around an execution result, shared verbatim by the
final-confirmation branch of `_handle_confirmation` and by the
`execute_plan` branch of `_process_command`. -/
def exec_response (rep : Report) : Response :=
  { status := if rep.success then "success" else "partial",
    message := "Executed " ++ toString (rep.successful_steps.getD 0) ++ "/" ++
               toString (rep.total_steps.getD 0) ++ " steps",
    result := some rep }

/-- `AIBackend._handle_confirmation`. `execF` models
`action_executor.execute_plan` (the executor is always present in the
modelled configuration). Besides the response and the successor state, the
third component records every plan handed to the executor by this call, so
that theorems can speak about how often execution happened. TTS calls are
effect-only and do not appear. -/
def handle_confirmation (execF : Plan → Report) (s : BackendState)
    (text : String) : Response × BackendState × List Plan :=
  let normalized := pyLower (pyStrip text)
  if cancel_tokens.contains normalized then
    ({ status := "success", message := "Dangerous task canceled" },
     { pending_plan := none, pending_command_text := "",
       pending_confirmations := 0,
       required_confirmations := s.required_confirmations }, [])
  else if confirm_tokens.contains normalized then
    let pc := s.pending_confirmations + 1
    let remaining := s.required_confirmations - pc
    if 0 < remaining then
      ({ status := "success",
         message := "Confirmation " ++ toString pc ++ "/" ++
                    toString s.required_confirmations ++ " received",
         awaiting_confirmation := some true,
         remaining_confirmations := some remaining },
       { s with pending_confirmations := pc }, [])
    else
      let plan := match s.pending_plan with
        | some p => if p.isEmpty then [] else p
        | none => []
      let s2 : BackendState :=
        { pending_plan := none, pending_command_text := "",
          pending_confirmations := 0,
          required_confirmations := s.required_confirmations }
      if !plan.isEmpty then (exec_response (execF plan), s2, [plan])
      else ({ status := "error", message := "No pending plan to execute" }, s2, [])
  else
    ({ status := "error",
       message := "Awaiting confirmation. Say 'confirm' or 'cancel'.",
       awaiting_confirmation := some true,
       remaining_confirmations :=
         some (s.required_confirmations - s.pending_confirmations) }, s, [])

/-- `AIBackend._process_transcribed_text`. Collaborators: `pluginF` models
`plugin_manager.execute_skill`, `plannerF` models `planner.create_plan`,
`plannerLastError` the accompanying `planner.last_error`, and `execF` the
executor (reachable only through `handle_confirmation`). The memory and TTS
calls are effect-only. The third component again logs plans handed to the
executor. -/
def process_transcribed_text (pluginF : String → Option PluginResult)
    (plannerF : String → Plan) (plannerLastError : String)
    (execF : Plan → Report) (s : BackendState) (text : String) :
    Response × BackendState × List Plan :=
  if s.pending_plan.isSome then
    handle_confirmation execF s text
  else
    match pluginF text with
    | some pr =>
        ({ status := if pr.success then "success" else "error",
           message := pr.response, plugin_data := some pr.data }, s, [])
    | none =>
        let plan := plannerF text
        if !plan.isEmpty then
          if needs_confirmation plan then
            ({ status := "success",
               message := "Dangerous action requires " ++
                          toString s.required_confirmations ++ " confirmations",
               needs_confirmation := some true,
               awaiting_confirmation := some true,
               remaining_confirmations := some s.required_confirmations },
             { s with
                pending_plan := some plan,
                pending_command_text := text,
                pending_confirmations := 0 }, [])
          else
            ({ status := "success", message := "Command: " ++ text,
               plan := some plan, needs_confirmation := some false }, s, [])
        else
          let le := pyLower plannerLastError
          let user_message :=
            if strContains le "ollama model not found" ||
               strContains le "model not found" then
              "Ollama model missing. Run: ollama pull llama3.2"
            else "Could not create action plan"
          ({ status := "error", message := user_message }, s, [])

/-- The `execute_plan` branch of `AIBackend._process_command` (the executor is
present in the modelled configuration). -/
def execute_plan_command (execF : Plan → Report) (plan : Plan) : Response :=
  if !plan.isEmpty then exec_response (execF plan)
  else { status := "error",
         message := "No plan to execute or executor not available" }

/-- The plan-forwarding fragment of `MainWindow._handle_response`: on a
success response carrying a `plan` key and no truthy `needs_confirmation`,
the GUI sends the plan back to the backend as an `execute_plan` command. -/
def gui_forwarded_plan (r : Response) : Option Plan :=
  if r.status == "success" then
    match r.plan with
    | some plan => if r.needs_confirmation.getD false then none else some plan
    | none => none
  else none

/-- Feed a list of utterances one by one through `handle_confirmation`,
collecting the final state, every plan handed to the executor, and the
responses in order: the test harness for the confirmation state machine. -/
def feed (execF : Plan → Report) (s : BackendState) (texts : List String) :
    BackendState × List Plan × List Response :=
  texts.foldl
    (fun acc t =>
      let step := handle_confirmation execF acc.1 t
      (step.2.1, acc.2.1 ++ step.2.2, acc.2.2 ++ [step.1]))
    (s, [], [])

/-! ### Concrete fixtures used by witnesses and counterexamples -/

/-- A dispatcher raising on actions marked `boom` and succeeding otherwise,
used to instantiate the executor claims. -/
def demoMixedDispatch : Action → StepResult := fun a =>
  if hasField a "boom" then StepResult.exn "device error"
  else StepResult.ok { success := true, message := "ok" }

/-- A three-step plan whose middle step makes `demoMixedDispatch` raise. -/
def demoPlan3 : Plan :=
  [[("action", JVal.s "wait")],
   [("action", JVal.s "wait"), ("boom", JVal.b true)],
   [("action", JVal.s "wait")]]

/-- An executor built from the mixed demo dispatcher. -/
def demoExecF : Plan → Report := execute_plan demoMixedDispatch

/-- A dangerous one-step plan: its rendering contains the keyword "del ". -/
def demoDangerPlan : Plan :=
  [[("action", JVal.s "shell"), ("target", JVal.s "del foo")]]

/-- A skill registry collaborator with no matching skill. -/
def pmNone : String → Option PluginResult := fun _ => none

/-- A skill registry collaborator that would handle every utterance. -/
def pmSkill : String → Option PluginResult :=
  fun _ => some { success := true, response := "handled by skill" }

/-- The one-step open-chrome plan of the end-to-end scenario. -/
def openChromePlan : Plan := [[("action", JVal.s "open"), ("target", JVal.s "chrome")]]

/-- A synthesizer collaborator returning the open-chrome plan. -/
def plannerOpenChrome : String → Plan := fun _ => openChromePlan

/-- A dangerous plan whose only action lacks the `action` key, so it fails
`validate_plan`. -/
def invalidDangerPlan : Plan := [[("target", JVal.s "del foo")]]

/-- A synthesizer collaborator returning a plan that fails validation. -/
def plannerInvalid : String → Plan := fun _ => invalidDangerPlan

/-- The idle backend state: no open confirmation session. -/
def idleState : BackendState := ⟨none, "", 0, 3⟩

/-- A full dispatcher over collaborators that find no elements, run every
shell command with exit code 0, and launch every application successfully. -/
def chromeDispatch : Action → StepResult := fun a =>
  StepResult.ok (execute_action (fun _ => none) (fun _ => none)
    (fun _ => (0, "", "")) (fun _ => true) ["format"] a)

/-- The executor built from `chromeDispatch`. -/
def chromeExec : Plan → Report := execute_plan chromeDispatch

/-- An accessibility-tier lookup knowing only the element "OK". -/
def demoAcc : String → Option (Int × Int) :=
  fun n => if n == "OK" then some (12, 34) else none

/-- A vision-tier lookup knowing only the element "Cancel". -/
def demoVis : String → Option (Int × Int) :=
  fun n => if n == "Cancel" then some (56, 78) else none

/-- A subprocess collaborator that reports success for every command. -/
def demoRunPS : String → Int × String × String := fun _ => (0, "spawned", "")

/-- A shell action whose target command contains a blacklisted word. -/
def demoShellAction : Action :=
  [("action", JVal.s "shell"), ("target", JVal.s "run Format-Volume now")]

/-- The recognized action kinds of `ActionExecutor._execute_action`. -/
def recognized_kinds : List String :=
  ["click", "type", "key", "shell", "open", "wait", "move", "scroll"]

/-! ### Helper lemmas -/

/-- A list matches as a prefix of itself followed by anything. -/
theorem listIsPrefix_append (n t : List Char) : listIsPrefix n (n ++ t) = true := by
  induction n with
  | nil => rfl
  | cons a as ih => simp [listIsPrefix, ih]

/-- A list is an infix of anything it ends. -/
theorem listIsInfix_append (pre n : List Char) : listIsInfix n (pre ++ n) = true := by
  induction pre with
  | nil =>
    cases n with
    | nil => rfl
    | cons b bs =>
      have h := listIsPrefix_append (b :: bs) []
      rw [List.append_nil] at h
      simp [listIsInfix, h]
  | cons p ps ih => simp [listIsInfix, ih]

/-- A string contains every suffix of itself as a substring. -/
theorem strContains_append_right (pre s : String) :
    strContains (pre ++ s) s = true := by
  have h : (pre ++ s).data = pre.data ++ s.data := rfl
  simp [strContains, h, listIsInfix_append]

/-- Splitting a list of outcomes into successes and failures preserves length. -/
theorem filter_length_add_countP (l : List Outcome) :
    (l.filter (fun o => o.success)).length +
      l.countP (fun o => !o.success) = l.length := by
  induction l with
  | nil => rfl
  | cons a as ih =>
    cases ha : a.success <;> simp [List.filter_cons, List.countP_cons, ha] <;> omega

/-! ### Claims about the Plan Executor -/

/-- Claim C5: for every non-empty plan, the execution report keeps one step
outcome per action in plan order, `total_steps` is the number of outcomes,
`successful_steps` counts the succeeded ones, and `success` holds exactly
when every step succeeded. -/
theorem execute_plan_report (dispatch : Action → StepResult) (plan : Plan)
    (h : plan ≠ []) :
    (execute_plan dispatch plan).results = some (plan.map (stepOutcome dispatch)) ∧
    (execute_plan dispatch plan).total_steps = some plan.length ∧
    (execute_plan dispatch plan).successful_steps =
      some ((plan.map (stepOutcome dispatch)).filter (fun o => o.success)).length ∧
    ((execute_plan dispatch plan).success = true ↔
      (execute_plan dispatch plan).successful_steps =
        (execute_plan dispatch plan).total_steps) := by
  cases plan with
  | nil => exact absurd rfl h
  | cons a as =>
    refine ⟨rfl, by simp [execute_plan], rfl, ?_⟩
    simp [execute_plan]

/-- Witness for C5 at a concrete three-step plan with one raising step. -/
theorem execute_plan_report_witness :
    demoPlan3 ≠ [] ∧
    ((execute_plan demoMixedDispatch demoPlan3).results =
        some (demoPlan3.map (stepOutcome demoMixedDispatch)) ∧
      (execute_plan demoMixedDispatch demoPlan3).total_steps = some demoPlan3.length ∧
      (execute_plan demoMixedDispatch demoPlan3).successful_steps =
        some ((demoPlan3.map (stepOutcome demoMixedDispatch)).filter
          (fun o => o.success)).length ∧
      ((execute_plan demoMixedDispatch demoPlan3).success = true ↔
        (execute_plan demoMixedDispatch demoPlan3).successful_steps =
          (execute_plan demoMixedDispatch demoPlan3).total_steps)) :=
  ⟨by decide, execute_plan_report demoMixedDispatch demoPlan3 (by decide)⟩

/-- Claim C6: the executor never aborts early — every action of a non-empty
plan contributes its outcome in order, a raised exception is recorded as a
failed outcome carrying the exception text, and a plan with exactly one
failing step among N reports N-1 successful steps. -/
theorem execute_plan_no_early_abort (dispatch : Action → StepResult) (plan : Plan)
    (h : plan ≠ []) :
    (execute_plan dispatch plan).results = some (plan.map (stepOutcome dispatch)) ∧
    (∀ a msg, dispatch a = StepResult.exn msg →
      stepOutcome dispatch a = { success := false, message := msg, extra := [] }) ∧
    ((plan.map (stepOutcome dispatch)).countP (fun o => !o.success) = 1 →
      (execute_plan dispatch plan).successful_steps = some (plan.length - 1)) := by
  refine ⟨(execute_plan_report dispatch plan h).1, ?_, ?_⟩
  · intro a msg hmsg
    simp [stepOutcome, hmsg]
  · intro h1
    have h2 := filter_length_add_countP (plan.map (stepOutcome dispatch))
    rw [h1] at h2
    have h3 := (execute_plan_report dispatch plan h).2.2.1
    rw [h3]
    have h4 : (plan.map (stepOutcome dispatch)).length = plan.length :=
      List.length_map _ _
    rw [h4] at h2
    simp only [Option.some.injEq]
    omega

/-- Witness for C6: the three-step plan with one raising step executes all
three steps and reports two successes. -/
theorem execute_plan_no_early_abort_witness :
    demoPlan3 ≠ [] ∧
    (execute_plan demoMixedDispatch demoPlan3).successful_steps =
      some (demoPlan3.length - 1) ∧
    stepOutcome demoMixedDispatch
        [("action", JVal.s "wait"), ("boom", JVal.b true)] =
      { success := false, message := "device error", extra := [] } := by
  have h := execute_plan_no_early_abort demoMixedDispatch demoPlan3 (by decide)
  exact ⟨by decide, h.2.2 (by decide), h.2.1 _ "device error" (by decide)⟩

/-- Claim C7 counterexample: the empty-plan report carries no `total_steps`
key at all, so it is not a report with `total_steps = 0`. -/
theorem execute_plan_empty_counterexample :
    (execute_plan (fun _ => StepResult.ok { success := true, message := "ok" })
      []).total_steps ≠ some 0 := by decide

/-- Claim C7 as amended: running the empty plan yields the fixed dictionary
`success = false`, `message = "Empty plan"` with no step-count keys (reading
`total_steps` with the default 0 used by callers observes 0), and the result
does not depend on the dispatcher — no step is dispatched. -/
theorem execute_plan_empty (dispatch : Action → StepResult) :
    execute_plan dispatch [] =
      { success := false, message := some "Empty plan", total_steps := none,
        successful_steps := none, results := none } ∧
    (execute_plan dispatch []).total_steps.getD 0 = 0 ∧
    (execute_plan dispatch []).success = false := ⟨rfl, rfl, rfl⟩

/-- Witness for C7 (amended) at a concrete dispatcher. -/
theorem execute_plan_empty_witness :
    execute_plan demoMixedDispatch [] =
      { success := false, message := some "Empty plan", total_steps := none,
        successful_steps := none, results := none } :=
  (execute_plan_empty demoMixedDispatch).1

/-! ### Claims about classification and the shell safety layer -/

/-- Claim C3: `needs_confirmation` is true exactly when some action carries a
truthy danger flag or its lower-cased rendering contains a fixed high-risk
substring; hence the classification is monotone in the presence of such a
substring, and a plan with neither flags nor substrings is not dangerous. -/
theorem needs_confirmation_characterization (plan : Plan) :
    (needs_confirmation plan = true ↔
      ∃ a ∈ plan, confirmFlag a = true ∨
        ∃ kw ∈ dangerous_keywords,
          strContains (pyLower (dumpAction a)) kw = true) ∧
    (∀ a ∈ plan, ∀ kw ∈ dangerous_keywords,
      strContains (pyLower (dumpAction a)) kw = true →
      needs_confirmation plan = true) ∧
    ((∀ a ∈ plan, confirmFlag a = false ∧
      ∀ kw ∈ dangerous_keywords,
        strContains (pyLower (dumpAction a)) kw = false) →
      needs_confirmation plan = false) := by
  have hiff : needs_confirmation plan = true ↔
      ∃ a ∈ plan, confirmFlag a = true ∨
        ∃ kw ∈ dangerous_keywords,
          strContains (pyLower (dumpAction a)) kw = true := by
    simp [needs_confirmation, List.any_eq_true, Bool.or_eq_true]
  refine ⟨hiff, ?_, ?_⟩
  · intro a ha kw hkw hc
    exact hiff.mpr ⟨a, ha, Or.inr ⟨kw, hkw, hc⟩⟩
  · intro hclean
    cases hnc : needs_confirmation plan with
    | false => rfl
    | true =>
      exfalso
      obtain ⟨a, ha, hcase⟩ := hiff.mp hnc
      rcases hcase with hflag | ⟨kw, hkw, hc⟩
      · rw [(hclean a ha).1] at hflag
        exact Bool.false_ne_true hflag
      · rw [(hclean a ha).2 kw hkw] at hc
        exact Bool.false_ne_true hc

/-- Witness for C3: the shell plan whose target contains "del " classifies as
dangerous, the open-chrome plan does not. -/
theorem needs_confirmation_characterization_witness :
    needs_confirmation demoDangerPlan = true ∧
    needs_confirmation openChromePlan = false := by
  have h1 := needs_confirmation_characterization demoDangerPlan
  have h2 := needs_confirmation_characterization openChromePlan
  exact ⟨h1.2.1 [("action", JVal.s "shell"), ("target", JVal.s "del foo")]
           (by decide) "del " (by decide) (by decide),
         h2.2.2 (by decide)⟩

/-- Claim C10: a command containing a blacklisted substring
(case-insensitively) is blocked before any process is spawned — the result is
the fixed triple with exit code -1 and the "Command blocked for safety"
error, independent of the subprocess collaborator — and the dispatcher
reports the blocked command as a failed step outcome carrying that exit code
and error. This layer sits in `ShellExecutor`, below and independent of the
plan-level `needs_confirmation` gate. -/
theorem shell_blacklist_guard (blacklist : List String)
    (runPS : String → Int × String × String) (command : String)
    (h : is_dangerous blacklist command = true) :
    (is_dangerous blacklist command = true ↔
      ∃ b ∈ blacklist, strContains (pyLower command) (pyLower b) = true) ∧
    execute_powershell blacklist runPS command =
      (-1, "", "Command blocked for safety") ∧
    (∀ runPS2, execute_powershell blacklist runPS command =
      execute_powershell blacklist runPS2 command) ∧
    (∀ a, getField a "target" = some (JVal.s command) → command ≠ "" →
      (action_shell blacklist runPS a).success = false ∧
      (action_shell blacklist runPS a).extra =
        [("output", JVal.s ""), ("error", JVal.s "Command blocked for safety"),
         ("return_code", JVal.n (-1))]) := by
  have hblocked : execute_powershell blacklist runPS command =
      (-1, "", "Command blocked for safety") := by
    simp [execute_powershell, h]
  refine ⟨by simp [is_dangerous, List.any_eq_true], hblocked, ?_, ?_⟩
  · intro runPS2
    simp [execute_powershell, h]
  · intro a hta hne
    have hbe : (command == "") = false := by
      simpa using hne
    simp [action_shell, hta, JVal.truthy, hbe, hblocked]

/-- Witness for C10: "format" is blacklisted, so "run Format-Volume now" is
blocked even though the subprocess collaborator would report success. -/
theorem shell_blacklist_guard_witness :
    is_dangerous ["format"] "run Format-Volume now" = true ∧
    execute_powershell ["format"] demoRunPS "run Format-Volume now" =
      (-1, "", "Command blocked for safety") ∧
    (action_shell ["format"] demoRunPS demoShellAction).success = false := by
  have h := shell_blacklist_guard ["format"] demoRunPS "run Format-Volume now"
    (by decide)
  exact ⟨by decide, h.2.1,
         (h.2.2.2 demoShellAction (by decide) (by decide)).1⟩

/-- Claim C8: for a named click target the accessibility tier is
authoritative (the vision tier is irrelevant when it yields a hit), the
vision tier is consulted only when the accessibility tier yields nothing,
a double miss produces a failure outcome whose message contains the target
name, and a coordinate-pair target is clicked directly, independently of
both lookup tiers. -/
theorem action_click_resolution (acc vis vis2 : String → Option (Int × Int))
    (a : Action) (name : String) (x y : Int) :
    (getField a "target" = some (JVal.s name) → acc name = some (x, y) →
      action_click acc vis a = clickOutcome x y ∧
      action_click acc vis a = action_click acc vis2 a) ∧
    (getField a "target" = some (JVal.s name) → acc name = none →
      vis name = some (x, y) →
      action_click acc vis a = clickOutcome x y) ∧
    (getField a "target" = some (JVal.s name) → acc name = none →
      vis name = none →
      (action_click acc vis a).success = false ∧
      strContains (action_click acc vis a).message name = true) ∧
    (∀ rest, getField a "target" = some (JVal.arr (x :: y :: rest)) →
      action_click acc vis a = clickOutcome x y ∧
      ∀ acc2 vis3, action_click acc vis a = action_click acc2 vis3 a) := by
  refine ⟨?_, ?_, ?_, ?_⟩
  · intro ht hacc
    constructor <;> simp [action_click, ht, hacc]
  · intro ht hacc hvis
    simp [action_click, ht, hacc, hvis]
  · intro ht hacc hvis
    have hmsg : action_click acc vis a =
        { success := false, message := "Could not find: " ++ name } := by
      simp [action_click, ht, hacc, hvis]
    rw [hmsg]
    exact ⟨rfl, strContains_append_right "Could not find: " name⟩
  · intro rest ht
    refine ⟨by simp [action_click, ht], ?_⟩
    intro acc2 vis3
    simp [action_click, ht]

/-- Witness for C8: with `demoAcc` knowing "OK" and `demoVis` knowing
"Cancel", the three named-target cases and the coordinate case land where
the claim says. -/
theorem action_click_resolution_witness :
    action_click demoAcc demoVis [("target", JVal.s "OK")] = clickOutcome 12 34 ∧
    action_click demoAcc demoVis [("target", JVal.s "Cancel")] = clickOutcome 56 78 ∧
    ((action_click demoAcc demoVis [("target", JVal.s "Ghost")]).success = false ∧
      strContains (action_click demoAcc demoVis
        [("target", JVal.s "Ghost")]).message "Ghost" = true) ∧
    action_click demoAcc demoVis [("target", JVal.arr [3, 4])] = clickOutcome 3 4 := by
  refine ⟨?_, ?_, ?_, ?_⟩
  · exact ((action_click_resolution demoAcc demoVis demoVis _ "OK" 12 34).1
      (by decide) (by decide)).1
  · exact (action_click_resolution demoAcc demoVis demoVis _ "Cancel" 56 78).2.1
      (by decide) (by decide) (by decide)
  · exact (action_click_resolution demoAcc demoVis demoVis _ "Ghost" 0 0).2.2.1
      (by decide) (by decide) (by decide)
  · exact ((action_click_resolution demoAcc demoVis demoVis _ "" 3 4).2.2.2 []
      (by decide)).1

/-! ### Claims about the Command Router and the Confirmation Gate -/

/-- Claim C1: with an open session and three required confirmations, the
token sequence confirm/confirm/confirm hands the pending plan to the
executor exactly once (on the third token, with the session cleared) while
the first two tokens only report the remaining count; any cancel token drops
the session with zero executions and a cancellation response; any other text
leaves the confirmation count unchanged and re-prompts with the remaining
count; and the count never increases on a non-affirmative token. -/
theorem confirmation_gate_protocol (execF : Plan → Report) (p : Plan)
    (src : String) (hp : p ≠ []) :
    (feed execF ⟨some p, src, 0, 3⟩ ["confirm", "confirm", "confirm"] =
      (⟨none, "", 0, 3⟩, [p],
       [{ status := "success", message := "Confirmation 1/3 received",
          awaiting_confirmation := some true, remaining_confirmations := some 2 },
        { status := "success", message := "Confirmation 2/3 received",
          awaiting_confirmation := some true, remaining_confirmations := some 1 },
        exec_response (execF p)])) ∧
    (∀ t, pyLower (pyStrip t) ∈ cancel_tokens →
      handle_confirmation execF ⟨some p, src, 0, 3⟩ t =
        ({ status := "success", message := "Dangerous task canceled" },
         ⟨none, "", 0, 3⟩, [])) ∧
    (∀ t n, pyLower (pyStrip t) ∉ cancel_tokens →
      pyLower (pyStrip t) ∉ confirm_tokens →
      handle_confirmation execF ⟨some p, src, n, 3⟩ t =
        ({ status := "error",
           message := "Awaiting confirmation. Say 'confirm' or 'cancel'.",
           awaiting_confirmation := some true,
           remaining_confirmations := some (3 - n) },
         ⟨some p, src, n, 3⟩, [])) ∧
    (∀ t s2, pyLower (pyStrip t) ∉ confirm_tokens →
      (handle_confirmation execF s2 t).2.1.pending_confirmations =
          s2.pending_confirmations ∨
        ((handle_confirmation execF s2 t).2.1.pending_confirmations = 0 ∧
         (handle_confirmation execF s2 t).2.1.pending_plan = none)) := by
  refine ⟨?_, ?_, ?_, ?_⟩
  · cases p with
    | nil => exact absurd rfl hp
    | cons a as => rfl
  · intro t ht
    simp [handle_confirmation, ht]
  · intro t n h1 h2
    simp [handle_confirmation, h1, h2]
  · intro t s2 hc
    by_cases h : pyLower (pyStrip t) ∈ cancel_tokens
    · right
      simp [handle_confirmation, h]
    · left
      simp [handle_confirmation, h, hc]

/-- Witness for C1: the dangerous demo plan, three confirmations, and a
cancel utterance (case-insensitive, with surrounding blanks). -/
theorem confirmation_gate_protocol_witness :
    demoDangerPlan ≠ [] ∧
    feed demoExecF ⟨some demoDangerPlan, "cmd", 0, 3⟩
        ["confirm", "confirm", "confirm"] =
      (⟨none, "", 0, 3⟩, [demoDangerPlan],
       [{ status := "success", message := "Confirmation 1/3 received",
          awaiting_confirmation := some true, remaining_confirmations := some 2 },
        { status := "success", message := "Confirmation 2/3 received",
          awaiting_confirmation := some true, remaining_confirmations := some 1 },
        exec_response (demoExecF demoDangerPlan)]) ∧
    handle_confirmation demoExecF ⟨some demoDangerPlan, "cmd", 0, 3⟩ " CANCEL " =
      ({ status := "success", message := "Dangerous task canceled" },
       ⟨none, "", 0, 3⟩, []) := by
  have h := confirmation_gate_protocol demoExecF demoDangerPlan "cmd" (by decide)
  exact ⟨by decide, h.1, h.2.1 " CANCEL " (by decide)⟩

/-- Claim C2: while a session is open, an utterance is delegated entirely to
the confirmation gate — the outcome neither consults nor depends on the
skill registry or the plan synthesizer. -/
theorem open_session_captures_input (pm pm2 : String → Option PluginResult)
    (pl pl2 : String → Plan) (le le2 : String) (execF : Plan → Report)
    (s : BackendState) (t : String) (h : s.pending_plan.isSome = true) :
    process_transcribed_text pm pl le execF s t = handle_confirmation execF s t ∧
    process_transcribed_text pm pl le execF s t =
      process_transcribed_text pm2 pl2 le2 execF s t := by
  constructor <;> simp [process_transcribed_text, h]

/-- Witness for C2: with a session open, even an utterance a skill would
handle goes to the confirmation gate. -/
theorem open_session_captures_input_witness :
    ((⟨some demoDangerPlan, "cmd", 1, 3⟩ : BackendState).pending_plan.isSome = true) ∧
    process_transcribed_text pmSkill plannerOpenChrome "" demoExecF
        ⟨some demoDangerPlan, "cmd", 1, 3⟩ "banana" =
      handle_confirmation demoExecF ⟨some demoDangerPlan, "cmd", 1, 3⟩ "banana" :=
  ⟨by decide,
   (open_session_captures_input pmSkill pmNone plannerOpenChrome plannerOpenChrome
     "" "" demoExecF ⟨some demoDangerPlan, "cmd", 1, 3⟩ "banana" (by decide)).1⟩

/-- Claim C4 counterexample: for the utterance "open chrome" with no skill
match and a non-dangerous one-step plan, the router response carries no
execution report and no plan is handed to the executor by the router — the
claimed immediate execution does not happen inside the router. -/
theorem router_inline_execution_counterexample :
    (process_transcribed_text pmNone plannerOpenChrome "" chromeExec idleState
        "open chrome").1.result = none ∧
    (process_transcribed_text pmNone plannerOpenChrome "" chromeExec idleState
        "open chrome").2.2 = [] := by decide

/-- Claim C4 as amended: the router does not execute a non-dangerous plan
itself; it returns the plan in the response with `needs_confirmation =
false` and leaves the state unchanged; the GUI forwards such a response as
an `execute_plan` command, whose handler runs the executor and reports the
execution result. -/
theorem router_nondangerous_plan (pm : String → Option PluginResult)
    (pl : String → Plan) (le : String) (execF : Plan → Report)
    (s : BackendState) (t : String) (hs : s.pending_plan = none)
    (hpm : pm t = none) (hplan : pl t ≠ [])
    (hnc : needs_confirmation (pl t) = false) :
    process_transcribed_text pm pl le execF s t =
      ({ status := "success", message := "Command: " ++ t, plan := some (pl t),
         needs_confirmation := some false }, s, []) ∧
    gui_forwarded_plan (process_transcribed_text pm pl le execF s t).1 =
      some (pl t) ∧
    execute_plan_command execF (pl t) = exec_response (execF (pl t)) := by
  have hne : (pl t).isEmpty = false := by
    cases hq : pl t with
    | nil => exact absurd hq hplan
    | cons a as => rfl
  have hmain : process_transcribed_text pm pl le execF s t =
      ({ status := "success", message := "Command: " ++ t, plan := some (pl t),
         needs_confirmation := some false }, s, []) := by
    simp [process_transcribed_text, hs, hpm, hne, hnc]
  refine ⟨hmain, ?_, ?_⟩
  · rw [hmain]
    simp [gui_forwarded_plan]
  · simp [execute_plan_command, hne]

/-- Witness for C4 (amended): the full open-chrome scenario, ending in a
report with one successful step out of one. -/
theorem router_nondangerous_plan_witness :
    needs_confirmation openChromePlan = false ∧
    process_transcribed_text pmNone plannerOpenChrome "" chromeExec idleState
        "open chrome" =
      ({ status := "success", message := "Command: open chrome",
         plan := some openChromePlan, needs_confirmation := some false },
       idleState, []) ∧
    gui_forwarded_plan (process_transcribed_text pmNone plannerOpenChrome ""
        chromeExec idleState "open chrome").1 = some openChromePlan ∧
    execute_plan_command chromeExec openChromePlan =
      exec_response (chromeExec openChromePlan) ∧
    (chromeExec openChromePlan).success = true ∧
    (chromeExec openChromePlan).total_steps = some 1 ∧
    (chromeExec openChromePlan).successful_steps = some 1 := by
  have h := router_nondangerous_plan pmNone plannerOpenChrome "" chromeExec
    idleState "open chrome" rfl rfl (by decide) (by decide)
  exact ⟨by decide, h.1, h.2.1, h.2.2, by decide, by decide, by decide⟩

/-- Claim C9 counterexample: the plan whose only action lacks the `action`
key fails `validate_plan`, yet the pipeline hands it to the confirmation
gate (it becomes the pending plan); moreover `validate_plan` accepts an
unrecognized kind, so the validation itself does not check recognized
kinds. -/
theorem validate_plan_bypass_counterexample :
    validate_plan invalidDangerPlan = false ∧
    (process_transcribed_text pmNone plannerInvalid "" chromeExec idleState
        "delete stuff").2.1.pending_plan = some invalidDangerPlan ∧
    validate_plan [[("action", JVal.s "frobnicate")]] = true := by decide

/-- Claim C9 as amended: `validate_plan` accepts a plan exactly when every
action carries the `action` key (the value is not checked against the
recognized kinds); the pipeline never invokes `validate_plan`, so a plan
failing it is still handed to the confirmation gate (when classified
dangerous) or returned for execution (when not); an unrecognized kind
surfaces only at dispatch time as a per-step failure outcome. -/
theorem validate_plan_unenforced (plan : Plan) :
    (validate_plan plan = true ↔ ∀ a ∈ plan, hasField a "action" = true) ∧
    (∀ pm pl le execF s t, s.pending_plan = none → pm t = none → pl t = plan →
      plan ≠ [] → validate_plan plan = false →
      ((needs_confirmation plan = true →
        (process_transcribed_text pm pl le execF s t).2.1.pending_plan =
          some plan) ∧
       (needs_confirmation plan = false →
        (process_transcribed_text pm pl le execF s t).1.plan = some plan))) ∧
    (∀ acc vis runPS openApp bl a k,
      getField a "action" = some (JVal.s k) →
      recognized_kinds.contains (pyLower k) = false →
      execute_action acc vis runPS openApp bl a =
        { success := false, message := "Unknown action: " ++ pyLower k,
          extra := [] }) := by
  refine ⟨?_, ?_, ?_⟩
  · simp [validate_plan, required_fields, List.all_eq_true]
  · intro pm pl le execF s t hs hpm hpl hplan hval
    have hne : plan.isEmpty = false := by
      cases hq : plan with
      | nil => exact absurd hq hplan
      | cons a as => rfl
    constructor
    · intro hnc
      simp [process_transcribed_text, hs, hpm, hpl, hne, hnc]
    · intro hnc
      simp [process_transcribed_text, hs, hpm, hpl, hne, hnc]
  · intro acc vis runPS openApp bl a k hk hrec
    have hmem : pyLower k ∉ recognized_kinds := by
      simpa using hrec
    have hne : ∀ x ∈ recognized_kinds, (pyLower k == x) = false := by
      intro x hx
      apply beq_eq_false_iff_ne.mpr
      intro he
      rw [he] at hmem
      exact hmem hx
    have h1 := hne "click" (by decide)
    have h2 := hne "type" (by decide)
    have h3 := hne "key" (by decide)
    have h4 := hne "shell" (by decide)
    have h5 := hne "open" (by decide)
    have h6 := hne "wait" (by decide)
    have h7 := hne "move" (by decide)
    have h8 := hne "scroll" (by decide)
    simp [execute_action, hk, h1, h2, h3, h4, h5, h6, h7, h8]

/-- Witness for C9 (amended): the invalid dangerous plan opens a session,
and an unrecognized kind fails at dispatch with the naming message. -/
theorem validate_plan_unenforced_witness :
    validate_plan invalidDangerPlan = false ∧
    (process_transcribed_text pmNone plannerInvalid "" chromeExec idleState
        "x").2.1.pending_plan = some invalidDangerPlan ∧
    execute_action (fun _ => none) (fun _ => none) (fun _ => (0, "", ""))
        (fun _ => true) [] [("action", JVal.s "frobnicate")] =
      { success := false, message := "Unknown action: frobnicate",
        extra := [] } := by
  have h := validate_plan_unenforced invalidDangerPlan
  refine ⟨by decide, ?_, ?_⟩
  · exact (h.2.1 pmNone plannerInvalid "" chromeExec idleState "x" rfl rfl rfl
      (by decide) (by decide)).1 (by decide)
  · exact h.2.2 (fun _ => none) (fun _ => none) (fun _ => (0, "", ""))
      (fun _ => true) [] [("action", JVal.s "frobnicate")] "frobnicate"
      (by decide) (by decide)

end OpenNova
